import Mathlib

/-!
Shallow embedding of `pkg/common/apply/interface.go` from the `ocm` repository:
a generic upsert applier `Apply` over collaborator interfaces `Getter`,
`Client` and a `CompareFunc`, with event recording.

Go errors are modelled by `GoErr`; a Go `error` value (which may be `nil`) is
`Option GoErr`.  The classification helpers `errors.IsNotFound` and
`errors.IsAlreadyExists` become `isNotFound` / `isAlreadyExists` on
`Option GoErr` (both return `false` on `nil`).  The `meta.Accessor` call
(which may fail) together with `GetName`, and the kind guessed by
`resourcehelper.GuessObjectGroupVersionKind`, are modelled by `MetaModel`.
The events recorder is modelled by returning the list of emitted events, and
the calls made to the collaborators are recorded in a call trace so that
"called exactly once" style properties can be stated.
-/

/-- Classified Go error values, as distinguished by the apimachinery error
helpers used in the source. -/
inductive GoErr where
  | notFound
  | alreadyExists
  | noObjectMeta
  | other (code : Nat)
deriving DecidableEq

/-- Model of `errors.IsNotFound` applied to a possibly-nil Go error. -/
def isNotFound : Option GoErr → Bool
  | some .notFound => true
  | _ => false

/-- Model of `errors.IsAlreadyExists` applied to a possibly-nil Go error. -/
def isAlreadyExists : Option GoErr → Bool
  | some .alreadyExists => true
  | _ => false

/-- Model of the `Getter[T]` interface: `Get(name)` returns an object value
together with a possibly-nil error, exactly as the Go signature does. -/
structure Getter (T : Type) where
  get : String → T × Option GoErr

/-- Model of the `Client[T]` interface with `Create` and `Update`; the
`context.Context` and options arguments carry no information in the model. -/
structure Client (T : Type) where
  create : T → T × Option GoErr
  update : T → T × Option GoErr

/-- Model of `CompareFunc[T]`: given required and existing, returns the
updated required and whether an update is needed. -/
def CompareFunc (T : Type) := T → T → T × Bool

/-- The `applier[T]` struct holding the three collaborators. -/
structure Applier (T : Type) where
  getter : Getter T
  client : Client T
  compare : CompareFunc T

/-- Model of the reflection-based helpers applied to a `T`:
`meta.Accessor(required)` (which can fail) composed with `GetName()`, and
`GuessObjectGroupVersionKind(required).Kind` (which always succeeds). -/
structure MetaModel (T : Type) where
  accessor : T → Except GoErr String
  kindOf : T → String

/-- One event emitted through the `events.Recorder`: `Warningf` sets
`warning := true`, `Eventf` sets it `false`; `reason` is the first argument
(`"<Kind>Created"` etc.).  The free-text message is formatting delegated to
the external library and is not modelled. -/
structure Event where
  warning : Bool
  reason : String
deriving DecidableEq

/-- A call made to one of the collaborators, with its arguments. -/
inductive Call (T : Type) where
  | get (name : String)
  | create (obj : T)
  | update (obj : T)
  | compare (required existing : T)
deriving DecidableEq

/-- True exactly on `Call.get` entries. -/
def Call.isGet {T : Type} : Call T → Bool
  | .get _ => true
  | _ => false

/-- True exactly on `Call.create` entries. -/
def Call.isCreate {T : Type} : Call T → Bool
  | .create _ => true
  | _ => false

/-- True exactly on `Call.update` entries. -/
def Call.isUpdate {T : Type} : Call T → Bool
  | .update _ => true
  | _ => false

/-- True exactly on `Call.compare` entries. -/
def Call.isCompare {T : Type} : Call T → Bool
  | .compare _ _ => true
  | _ => false

/-- Everything `applier.Apply` produces: the returned `runtime.Object`
(`none` models a `nil` interface value written literally in the source),
the changed flag, the returned error, the events emitted through the
recorder, and the trace of collaborator calls in order. -/
structure ApplyResult (T : Type) where
  obj : Option T
  changed : Bool
  err : Option GoErr
  events : List Event
  calls : List (Call T)
deriving DecidableEq

/-- Shallow embedding of `applier.Apply` from
`pkg/common/apply/interface.go`, lines 49–84.  The control flow mirrors the
source statement by statement: accessor failure returns immediately; a
not-found fetch error takes the create path (absorbing already-exists,
recording `<Kind>Created` / `<Kind>CreateFailed`); otherwise — note: for any
other fetch error as well, since the source has no further check on the
fetch error — the comparator runs on the fetched value, an unchanged result
returns with no write, and a changed result takes the update path recording
`<Kind>Updated` / `<Kind>UpdateFailed`. -/
def Apply {T : Type} (M : MetaModel T) (a : Applier T) (required : T) :
    ApplyResult T :=
  match M.accessor required with
  | .error e => ⟨none, false, some e, [], []⟩
  | .ok name =>
    let kind := M.kindOf required
    let getRes := a.getter.get name
    match isNotFound getRes.2 with
    | true =>
      let createRes := a.client.create required
      match isAlreadyExists createRes.2 with
      | true =>
        ⟨some required, false, none, [], [Call.get name, Call.create required]⟩
      | false =>
        match createRes.2 with
        | none =>
          ⟨some createRes.1, true, none, [⟨false, kind ++ "Created"⟩],
            [Call.get name, Call.create required]⟩
        | some e =>
          ⟨some createRes.1, true, some e, [⟨true, kind ++ "CreateFailed"⟩],
            [Call.get name, Call.create required]⟩
    | false =>
      let cmp := a.compare required getRes.1
      match cmp.2 with
      | false =>
        ⟨some cmp.1, false, none, [],
          [Call.get name, Call.compare required getRes.1]⟩
      | true =>
        let updRes := a.client.update cmp.1
        match updRes.2 with
        | some e =>
          ⟨some updRes.1, true, some e, [⟨true, kind ++ "UpdateFailed"⟩],
            [Call.get name, Call.compare required getRes.1, Call.update cmp.1]⟩
        | none =>
          ⟨some updRes.1, true, none, [⟨false, kind ++ "Updated"⟩],
            [Call.get name, Call.compare required getRes.1, Call.update cmp.1]⟩

/-- Metadata model over `Nat` objects used in concrete instances: the name is
the decimal rendering of the object and the kind is `"Foo"`. -/
def natMeta : MetaModel Nat :=
  ⟨fun n => .ok (toString n), fun _ => "Foo"⟩

/-- Metadata model whose accessor always fails, for the accessor-error path. -/
def badMeta : MetaModel Nat :=
  ⟨fun _ => .error .noObjectMeta, fun _ => "Foo"⟩

/-- Collaborators where the fetch fails with a non-not-found error and the
comparator reports no change. -/
def c1Applier : Applier Nat :=
  ⟨⟨fun _ => (0, some (.other 7))⟩,
    ⟨fun n => (n, none), fun n => (n, none)⟩,
    fun _ x => (x, false)⟩

/-- Collaborators where the fetch reports not-found and create succeeds,
returning the argument plus one. -/
def createOkApplier : Applier Nat :=
  ⟨⟨fun _ => (0, some .notFound)⟩,
    ⟨fun n => (n + 1, none), fun n => (n, none)⟩,
    fun r _ => (r, true)⟩

/-- Collaborators where the fetch reports not-found and create fails with
already-exists. -/
def alreadyExistsApplier : Applier Nat :=
  ⟨⟨fun _ => (0, some .notFound)⟩,
    ⟨fun _ => (0, some .alreadyExists), fun n => (n, none)⟩,
    fun r _ => (r, true)⟩

/-- Collaborators where the fetch reports not-found and create fails with a
generic error while still returning a non-nil object value. -/
def createFailApplier : Applier Nat :=
  ⟨⟨fun _ => (0, some .notFound)⟩,
    ⟨fun _ => (42, some (.other 3)), fun n => (n, none)⟩,
    fun r _ => (r, true)⟩

/-- Collaborators where the fetch succeeds with `7` and the comparator
reports no change, returning the existing object. -/
def noChangeApplier : Applier Nat :=
  ⟨⟨fun _ => (7, none)⟩,
    ⟨fun n => (n, none), fun n => (n, none)⟩,
    fun _ x => (x, false)⟩

/-- Collaborators where the fetch succeeds, the comparator reports a change
with merged object `required`, and update succeeds doubling its argument. -/
def updateOkApplier : Applier Nat :=
  ⟨⟨fun _ => (7, none)⟩,
    ⟨fun n => (n, none), fun n => (2 * n, none)⟩,
    fun r _ => (r, true)⟩

/-- Collaborators where the fetch succeeds, the comparator reports a change,
and update fails. -/
def updateFailApplier : Applier Nat :=
  ⟨⟨fun _ => (7, none)⟩,
    ⟨fun n => (n, none), fun _ => (0, some (.other 5))⟩,
    fun r _ => (r, true)⟩

/-- Collaborators whose create and update are the identity, for the
accessor-error path. -/
def idApplier : Applier Nat :=
  ⟨⟨fun _ => (0, none)⟩,
    ⟨fun n => (n, none), fun n => (n, none)⟩,
    fun r _ => (r, true)⟩

/-- Claim C1 (code bug): the source never returns a fetch error other than
not-found.  Here the getter fails with `other 7`, which is not a not-found
error, yet `Apply` invokes the comparator on the zero-valued fetch result
and returns no error at all, instead of returning `other 7` verbatim with
no comparator call. -/
theorem fetch_error_swallowed :
    c1Applier.getter.get "5" = (0, some (GoErr.other 7)) ∧
    isNotFound (some (GoErr.other 7)) = false ∧
    Apply natMeta c1Applier 5 =
      ⟨some 0, false, none, [], [Call.get "5", Call.compare 5 0]⟩ :=
  ⟨rfl, rfl, rfl⟩

/-- Claim C2: when the accessor succeeds, the getter reports not-found and
create succeeds, `Apply` calls create exactly once with the desired object,
emits a `<Kind>Created` notification and returns the created object,
changed true and no error. -/
theorem apply_notfound_create_success {T : Type} (M : MetaModel T)
    (a : Applier T) (required created : T) (name : String) (x : T)
    (hacc : M.accessor required = .ok name)
    (hget : a.getter.get name = (x, some .notFound))
    (hcre : a.client.create required = (created, none)) :
    Apply M a required =
      ⟨some created, true, none,
        [⟨false, M.kindOf required ++ "Created"⟩],
        [Call.get name, Call.create required]⟩ := by
  simp [Apply, hacc, hget, hcre, isNotFound, isAlreadyExists]

/-- Concrete instance of `apply_notfound_create_success`. -/
theorem apply_notfound_create_success_witness :
    Apply natMeta createOkApplier 5 =
      ⟨some 6, true, none, [⟨false, "FooCreated"⟩],
        [Call.get "5", Call.create 5]⟩ :=
  apply_notfound_create_success natMeta createOkApplier 5 6 "5" 0 rfl rfl rfl

/-- Claim C3: when the getter reports not-found and create fails with
already-exists, `Apply` returns the desired object unchanged with changed
false and no error, and emits no notification. -/
theorem apply_create_already_exists {T : Type} (M : MetaModel T)
    (a : Applier T) (required x actual : T) (name : String)
    (hacc : M.accessor required = .ok name)
    (hget : a.getter.get name = (x, some .notFound))
    (hcre : a.client.create required = (actual, some .alreadyExists)) :
    Apply M a required =
      ⟨some required, false, none, [],
        [Call.get name, Call.create required]⟩ := by
  simp [Apply, hacc, hget, hcre, isNotFound, isAlreadyExists]

/-- Concrete instance of `apply_create_already_exists`. -/
theorem apply_create_already_exists_witness :
    Apply natMeta alreadyExistsApplier 5 =
      ⟨some 5, false, none, [], [Call.get "5", Call.create 5]⟩ :=
  apply_create_already_exists natMeta alreadyExistsApplier 5 0 0 "5" rfl rfl rfl

/-- Claim C4 counterexample: the getter reports not-found and create fails
with a non-already-exists error while returning the object value `42`;
`Apply` then returns `some 42` as the object, not `nil`, because the source
returns whatever value create returned alongside the error. -/
theorem create_failed_returns_nonnil_counterexample :
    createFailApplier.client.create 5 = (42, some (GoErr.other 3)) ∧
    isAlreadyExists (some (GoErr.other 3)) = false ∧
    (Apply natMeta createFailApplier 5).obj ≠ none := by
  refine ⟨rfl, rfl, ?_⟩
  simp [Apply, natMeta, createFailApplier, isNotFound, isAlreadyExists]

/-- Claim C4 (amended): when the getter reports not-found and create fails
with an error other than already-exists, `Apply` emits a
`<Kind>CreateFailed` notification and returns the object value create
returned (in practice the client's zero value, not necessarily nil),
changed true, and the create error. -/
theorem apply_notfound_create_fail {T : Type} (M : MetaModel T)
    (a : Applier T) (required x actual : T) (name : String) (e : GoErr)
    (hacc : M.accessor required = .ok name)
    (hget : a.getter.get name = (x, some .notFound))
    (hcre : a.client.create required = (actual, some e))
    (hne : e ≠ .alreadyExists) :
    Apply M a required =
      ⟨some actual, true, some e,
        [⟨true, M.kindOf required ++ "CreateFailed"⟩],
        [Call.get name, Call.create required]⟩ := by
  cases e with
  | alreadyExists => exact absurd rfl hne
  | notFound => simp [Apply, hacc, hget, hcre, isNotFound, isAlreadyExists]
  | noObjectMeta => simp [Apply, hacc, hget, hcre, isNotFound, isAlreadyExists]
  | other c => simp [Apply, hacc, hget, hcre, isNotFound, isAlreadyExists]

/-- Concrete instance of `apply_notfound_create_fail`. -/
theorem apply_notfound_create_fail_witness :
    Apply natMeta createFailApplier 5 =
      ⟨some 42, true, some (GoErr.other 3), [⟨true, "FooCreateFailed"⟩],
        [Call.get "5", Call.create 5]⟩ :=
  apply_notfound_create_fail natMeta createFailApplier 5 0 42 "5"
    (.other 3) rfl rfl rfl (by decide)

/-- Claim C5: when the getter returns an existing object without error and
the comparator reports no change, `Apply` makes no create or update call
and returns the comparator's merged result, changed false and no error. -/
theorem apply_no_change_no_write {T : Type} (M : MetaModel T)
    (a : Applier T) (required existing merged : T) (name : String)
    (hacc : M.accessor required = .ok name)
    (hget : a.getter.get name = (existing, none))
    (hcmp : a.compare required existing = (merged, false)) :
    Apply M a required =
      ⟨some merged, false, none, [],
        [Call.get name, Call.compare required existing]⟩ := by
  simp [Apply, hacc, hget, hcmp, isNotFound]

/-- Concrete instance of `apply_no_change_no_write`. -/
theorem apply_no_change_no_write_witness :
    Apply natMeta noChangeApplier 5 =
      ⟨some 7, false, none, [], [Call.get "5", Call.compare 5 7]⟩ :=
  apply_no_change_no_write natMeta noChangeApplier 5 7 7 "5" rfl rfl rfl

/-- Claim C6: when the getter returns an existing object without error, the
comparator reports a change with merged object `merged`, and update
succeeds, `Apply` calls update exactly once with `merged`, emits a
`<Kind>Updated` notification and returns the updated object, changed true
and no error. -/
theorem apply_changed_update_success {T : Type} (M : MetaModel T)
    (a : Applier T) (required existing merged updated : T) (name : String)
    (hacc : M.accessor required = .ok name)
    (hget : a.getter.get name = (existing, none))
    (hcmp : a.compare required existing = (merged, true))
    (hupd : a.client.update merged = (updated, none)) :
    Apply M a required =
      ⟨some updated, true, none,
        [⟨false, M.kindOf required ++ "Updated"⟩],
        [Call.get name, Call.compare required existing, Call.update merged]⟩ := by
  simp [Apply, hacc, hget, hcmp, hupd, isNotFound]

/-- Concrete instance of `apply_changed_update_success`. -/
theorem apply_changed_update_success_witness :
    Apply natMeta updateOkApplier 5 =
      ⟨some 10, true, none, [⟨false, "FooUpdated"⟩],
        [Call.get "5", Call.compare 5 7, Call.update 5]⟩ :=
  apply_changed_update_success natMeta updateOkApplier 5 7 5 10 "5"
    rfl rfl rfl rfl

/-- Claim C7: whenever the comparator runs (the fetch error is not a
not-found error) and reports a change, and update fails, `Apply` emits a
`<Kind>UpdateFailed` notification and returns changed true together with
the update error. -/
theorem apply_update_fail {T : Type} (M : MetaModel T)
    (a : Applier T) (required merged updated : T) (name : String) (e : GoErr)
    (hacc : M.accessor required = .ok name)
    (hfound : isNotFound (a.getter.get name).2 = false)
    (hcmp : a.compare required (a.getter.get name).1 = (merged, true))
    (hupd : a.client.update merged = (updated, some e)) :
    Apply M a required =
      ⟨some updated, true, some e,
        [⟨true, M.kindOf required ++ "UpdateFailed"⟩],
        [Call.get name, Call.compare required (a.getter.get name).1,
          Call.update merged]⟩ := by
  simp [Apply, hacc, hfound, hcmp, hupd]

/-- Concrete instance of `apply_update_fail`. -/
theorem apply_update_fail_witness :
    Apply natMeta updateFailApplier 5 =
      ⟨some 0, true, some (GoErr.other 5), [⟨true, "FooUpdateFailed"⟩],
        [Call.get "5", Call.compare 5 7, Call.update 5]⟩ :=
  apply_update_fail natMeta updateFailApplier 5 5 0 "5" (.other 5)
    rfl rfl rfl rfl

/-- Claim C8: if the comparator satisfies its contract (a result flagged
unchanged equals the existing object) and `Apply` takes the found path yet
reports changed false, the object it returns is the existing object the
getter fetched. -/
theorem apply_unchanged_returns_existing {T : Type} (M : MetaModel T)
    (a : Applier T) (required : T) (name : String)
    (hcontract : ∀ r x, (a.compare r x).2 = false → (a.compare r x).1 = x)
    (hacc : M.accessor required = .ok name)
    (hfound : isNotFound (a.getter.get name).2 = false)
    (hchanged : (Apply M a required).changed = false) :
    (Apply M a required).obj = some (a.getter.get name).1 := by
  have hcon := hcontract required (a.getter.get name).1
  rcases hc : a.compare required (a.getter.get name).1 with ⟨merged, modified⟩
  rw [hc] at hcon
  cases modified with
  | false =>
    have hme : merged = (a.getter.get name).1 := hcon rfl
    simp [Apply, hacc, hfound, hc, hme]
  | true =>
    rcases hu : a.client.update merged with ⟨u, uerr⟩
    cases uerr with
    | none => simp [Apply, hacc, hfound, hc, hu] at hchanged
    | some e => simp [Apply, hacc, hfound, hc, hu] at hchanged

/-- Concrete instance of `apply_unchanged_returns_existing`. -/
theorem apply_unchanged_returns_existing_witness :
    (Apply natMeta noChangeApplier 6).obj = some 7 :=
  apply_unchanged_returns_existing natMeta noChangeApplier 6 "6"
    (fun _ _ _ => rfl) rfl rfl rfl

/-- Claim C9: in any single invocation, each collaborator operation appears
at most once in the call trace, and the trace never contains both a create
and an update. -/
theorem apply_each_collaborator_at_most_once {T : Type} (M : MetaModel T)
    (a : Applier T) (required : T) :
    (Apply M a required).calls.countP Call.isGet ≤ 1 ∧
    (Apply M a required).calls.countP Call.isCreate ≤ 1 ∧
    (Apply M a required).calls.countP Call.isUpdate ≤ 1 ∧
    (Apply M a required).calls.countP Call.isCompare ≤ 1 ∧
    ¬((Apply M a required).calls.any Call.isCreate = true ∧
      (Apply M a required).calls.any Call.isUpdate = true) := by
  simp only [Apply]
  split
  · simp [List.countP_nil]
  · split
    · split
      · simp [List.countP_cons, Call.isGet, Call.isCreate, Call.isUpdate,
          Call.isCompare]
      · split
        · simp [List.countP_cons, Call.isGet, Call.isCreate, Call.isUpdate,
            Call.isCompare]
        · simp [List.countP_cons, Call.isGet, Call.isCreate, Call.isUpdate,
            Call.isCompare]
    · split
      · simp [List.countP_cons, Call.isGet, Call.isCreate, Call.isUpdate,
          Call.isCompare]
      · split
        · simp [List.countP_cons, Call.isGet, Call.isCreate, Call.isUpdate,
            Call.isCompare]
        · simp [List.countP_cons, Call.isGet, Call.isCreate, Call.isUpdate,
            Call.isCompare]

/-- Claim C10: if obtaining the metadata accessor for the required object
fails, `Apply` returns nil, changed false and that error, with no
collaborator call and no notification. -/
theorem apply_accessor_error {T : Type} (M : MetaModel T) (a : Applier T)
    (required : T) (e : GoErr)
    (hacc : M.accessor required = .error e) :
    Apply M a required = ⟨none, false, some e, [], []⟩ := by
  simp [Apply, hacc]

/-- Concrete instance of `apply_accessor_error`. -/
theorem apply_accessor_error_witness :
    Apply badMeta idApplier 5 = ⟨none, false, some GoErr.noObjectMeta, [], []⟩ :=
  apply_accessor_error badMeta idApplier 5 .noObjectMeta rfl
